import Mathlib

/-!
Verification development for the life-story chatbot backend
(services/api/app: safety.py, models.py, main.py).

The Python code is shallowly embedded:
* pure functions become Lean functions;
* the regular-expression engine of the `re` standard library is treated as
  an external collaborator: `check_safety` is parametrised by a search
  function `search : String → String → Bool` where `search p m` models
  `re.compile(p, re.IGNORECASE).search(m) is not None`; the pattern strings
  themselves are transcribed literally from safety.py;
* every external effect of one `/chat` request (OpenAI calls, uuid4
  generation, database commits) is an oracle value fixed before the turn,
  collected in the `Oracles` structure;
* the database is an in-memory list of rows; a commit that would raise is
  modelled by the corresponding `Bool` oracle being `false`, in which case
  the persisted list is left unchanged.
-/

/-- SafetyCategory enum from safety.py (includes the unused SELF_HARM member). -/
inductive SafetyCategory where
  | MEDICAL
  | LEGAL
  | CRISIS
  | SELF_HARM
  | INAPPROPRIATE
deriving DecidableEq, Repr

/-- The .value string of each safety.py SafetyCategory member. -/
def SafetyCategory.value : SafetyCategory → String
  | .MEDICAL => "medical"
  | .LEGAL => "legal"
  | .CRISIS => "crisis"
  | .SELF_HARM => "self_harm"
  | .INAPPROPRIATE => "inappropriate"

/-- SafetyResult dataclass from safety.py. The confidence Float only ever
holds the literals 0.0 and 1.0, so it is modelled as a rational number. -/
structure SafetyResult where
  is_safe : Bool
  category : Option SafetyCategory := none
  confidence : ℚ := 0
  matched_patterns : Option (List String) := none
  safe_response : Option String := none
deriving DecidableEq, Repr

/-- self.medical_patterns from SafetyRouter.__init__ (regex source strings). -/
def medical_patterns : List String :=
  [ "\\b(?:diagnose|diagnosis|treatment|medicine|medication|prescription|pills|disease|illness|symptoms|pain|hurt|doctor|hospital|emergency)\\b",
    "\\b(?:what.\x7b0,10\x7dwrong.\x7b0,10\x7dme|am.\x7b0,5\x7di.\x7b0,5\x7dsick|feel.\x7b0,10\x7dunwell|health.\x7b0,10\x7dproblem)\\b",
    "\\b(?:should.\x7b0,5\x7di.\x7b0,5\x7dtake|what.\x7b0,10\x7dmedicine|medical.\x7b0,10\x7dadvice)\\b" ]

/-- self.legal_patterns from SafetyRouter.__init__. -/
def legal_patterns : List String :=
  [ "\\b(?:legal|lawyer|attorney|court|sue|lawsuit|contract|will|testament|legal.\x7b0,10\x7dadvice)\\b",
    "\\b(?:what.\x7b0,10\x7dmy.\x7b0,10\x7drights|can.\x7b0,5\x7di.\x7b0,5\x7dsue|legal.\x7b0,10\x7dhelp)\\b" ]

/-- self.crisis_patterns from SafetyRouter.__init__. -/
def crisis_patterns : List String :=
  [ "\\b(?:kill.\x7b0,10\x7dmyself|end.\x7b0,10\x7dmy.\x7b0,10\x7dlife|want.\x7b0,10\x7dto.\x7b0,10\x7ddie|suicide|suicidal)\\b",
    "\\b(?:hurt.\x7b0,10\x7dmyself|harm.\x7b0,10\x7dmyself|don.t.\x7b0,10\x7dwant.\x7b0,10\x7dto.\x7b0,10\x7dlive)\\b",
    "\\b(?:emergency|help.\x7b0,5\x7dme|crisis|desperate)\\b" ]

/-- self.inappropriate_patterns from SafetyRouter.__init__. -/
def inappropriate_patterns : List String :=
  [ "\\b(?:ignore.\x7b0,10\x7dinstructions|pretend.\x7b0,10\x7dyou.\x7b0,10\x7dare|act.\x7b0,10\x7dlike|roleplay)\\b" ]

/-- self.compiled_patterns: a dict with insertion order MEDICAL, LEGAL,
CRISIS, INAPPROPRIATE (Python dicts iterate in insertion order). -/
def compiled_patterns : List (SafetyCategory × List String) :=
  [ (SafetyCategory.MEDICAL, medical_patterns),
    (SafetyCategory.LEGAL, legal_patterns),
    (SafetyCategory.CRISIS, crisis_patterns),
    (SafetyCategory.INAPPROPRIATE, inappropriate_patterns) ]

/-- self.safe_responses dict from SafetyRouter.__init__; `none` models a
missing key (only SELF_HARM is absent in the Python dict). -/
def safe_responses : SafetyCategory → Option String
  | .MEDICAL => some ("I understand you may have health concerns. For any medical questions or symptoms, " ++
      "it's important to speak with a healthcare professional like your doctor or call your " ++
      "local health services. I'm here to chat about your life stories and everyday experiences instead. " ++
      "Is there a memory or experience you'd like to share with me?")
  | .LEGAL => some ("I can't provide legal advice or guidance on legal matters. For legal questions, " ++
      "it's best to consult with a qualified lawyer or legal aid service. " ++
      "Let's focus on sharing some of your life experiences instead - " ++
      "perhaps a story about your work life or family?")
  | .CRISIS => some ("I'm concerned about you and want to make sure you get the right support. " ++
      "Please reach out to a crisis helpline, your doctor, or emergency services if you need immediate help. " ++
      "In Denmark, you can call 70 201 201 for mental health support. " ++
      "You're important and there are people who want to help.")
  | .SELF_HARM => none
  | .INAPPROPRIATE => some ("I'm designed to be a supportive companion for sharing life stories and everyday conversations. " ++
      "Let's keep our chat focused on your experiences, memories, and daily life. " ++
      "What's something interesting that happened to you recently?")

/-- The for-loop body of SafetyRouter.check_safety over the category dict:
collect every pattern of the group that matches, and return an unsafe
verdict for the first group with a non-empty match list. -/
def checkSafetyGo (search : String → String → Bool) (m : String) :
    List (SafetyCategory × List String) → SafetyResult
  | [] => { is_safe := true }
  | (category, patterns) :: rest =>
    let matched_patterns := patterns.filter (fun p => search p m)
    if matched_patterns.isEmpty then
      checkSafetyGo search m rest
    else
      { is_safe := false
        category := some category
        confidence := 1
        matched_patterns := some matched_patterns
        safe_response := safe_responses category }

/-- SafetyRouter.check_safety from safety.py: lowercase and trim the
message once, then scan the rule groups in dict order. -/
def check_safety (search : String → String → Bool) (message : String) : SafetyResult :=
  checkSafetyGo search (message.toLower.trim) compiled_patterns

/-!
UUID model. A Python uuid.UUID is a 128-bit integer; it is modelled as a
natural number. uuidStr models str(u): 32 lowercase hex digits with
hyphens after digit 8, 12, 16 and 20. pyParseUUID models the accepting
behaviour of the uuid.UUID(str) constructor from CPython's uuid.py: remove
every occurrence of "urn:" and "uuid:", strip curly braces from both ends,
remove hyphens, then require exactly 32 hex digits (int(_, 16) is modelled
as plain hex-digit parsing; its whitespace/sign/underscore edge cases are
not reachable from the claims settled here).
-/

/-- Hex digit character for a value below 16 (lowercase, as Python x format). -/
def hexChar (n : Nat) : Char :=
  if n < 10 then Char.ofNat (48 + n) else Char.ofNat (87 + n)

/-- The 32 hex digits of a 128-bit value, most significant first. -/
def hexDigits (n : Nat) : List Char :=
  (List.range 32).map (fun i => hexChar (n / 16 ^ (31 - i) % 16))

/-- str(uuid.UUID) : 8-4-4-4-12 lowercase hex groups joined by hyphens. -/
def uuidStr (n : Nat) : String :=
  let h := hexDigits n
  ⟨h.take 8 ++ '-' :: (h.drop 8).take 4 ++ '-' :: (h.drop 12).take 4 ++
    '-' :: (h.drop 16).take 4 ++ '-' :: h.drop 20⟩

/-- Fuelled removal of every occurrence of a fixed non-empty character
sequence, scanning left to right (models str.replace(pat, "")). -/
def removeAllSub (pat : List Char) : Nat → List Char → List Char
  | _, [] => []
  | 0, cs => cs
  | fuel + 1, c :: cs =>
    if pat ≠ [] ∧ pat.isPrefixOf (c :: cs) then
      removeAllSub pat fuel ((c :: cs).drop pat.length)
    else
      c :: removeAllSub pat fuel cs

/-- True for the curly brace characters stripped by str.strip (code points
123 and 125). -/
def isBraceChar (c : Char) : Bool := c.toNat = 123 || c.toNat = 125

/-- str.strip("..."): drop brace characters from both ends. -/
def pyStripBraces (cs : List Char) : List Char :=
  ((cs.dropWhile isBraceChar).reverse.dropWhile isBraceChar).reverse

/-- Value of one hex digit, upper or lower case, as int(_, 16) accepts
(code points of 0-9, a-f, A-F). -/
def hexDigitVal (c : Char) : Option Nat :=
  if 48 ≤ c.toNat ∧ c.toNat ≤ 57 then some (c.toNat - 48)
  else if 97 ≤ c.toNat ∧ c.toNat ≤ 102 then some (c.toNat - 87)
  else if 65 ≤ c.toNat ∧ c.toNat ≤ 70 then some (c.toNat - 55)
  else none

/-- Big-endian hex parse; fails on the first non-hex character. -/
def parseHexList (acc : Nat) : List Char → Option Nat
  | [] => some acc
  | c :: cs =>
    match hexDigitVal c with
    | some d => parseHexList (16 * acc + d) cs
    | none => none

/-- The character cleanup done by uuid.UUID(str): remove every "urn:" and
"uuid:" occurrence, strip braces from both ends, drop hyphens. -/
def uuidClean (s : String) : List Char :=
  (pyStripBraces
      (removeAllSub "uuid:".data
        (removeAllSub "urn:".data s.data.length s.data).length
        (removeAllSub "urn:".data s.data.length s.data))).filter
    (fun c => c ≠ '-')

/-- uuid.UUID(str) from CPython uuid.py, as an Option-valued parse: the
cleaned character list must be exactly 32 hex digits. -/
def pyParseUUID (s : String) : Option Nat :=
  if (uuidClean s).length = 32 then parseHexList 0 (uuidClean s) else none

/-!
Data model from models.py. The created_at / updated_at timestamp columns
are wall-clock values with no decision logic attached and are not
modelled. A Session row's uuid primary key is the 128-bit value.
-/

/-- SafetyCategory enum from models.py (the database enum, without
SELF_HARM). -/
inductive ModelsSafetyCategory where
  | MEDICAL
  | LEGAL
  | CRISIS
  | INAPPROPRIATE
deriving DecidableEq, Repr

/-- Session ORM model from models.py. -/
structure Session where
  id : Nat
  summary : Option String := none
  message_count : Nat := 0
  last_user_message : Option String := none
  last_assistant_reply : Option String := none
deriving DecidableEq, Repr

/-- SafetyIntervention ORM model from models.py (id and created_at
columns are not modelled; the row content relevant to the claims is the
truncated session id and the category). -/
structure SafetyIntervention where
  session_id_prefix : String
  category : ModelsSafetyCategory
deriving DecidableEq, Repr

/-- ChatIn request model from main.py. -/
structure ChatIn where
  session_id : String
  message : String
deriving DecidableEq, Repr

/-- ChatOut response model from main.py. -/
structure ChatOut where
  session_id : String
  reply : String
  has_summary : Bool := false
deriving DecidableEq, Repr

deriving instance DecidableEq for Except

/-- Outcomes of the external effects of one /chat request, fixed before
the turn: whether the OpenAI client is configured, the uuid4 value drawn
if one is needed, the result of the reply-generation call, the result of
the OpenAI call inside generate_summary, whether the intervention-log
commit succeeds, and whether the final session commit succeeds. -/
structure Oracles where
  clientConfigured : Bool
  freshId : Nat
  genResult : Except String String
  sumResult : Except String String
  logOk : Bool
  commitOk : Bool
deriving DecidableEq, Repr

/-- SUMMARY_FREQUENCY constant from main.py. -/
def SUMMARY_FREQUENCY : Nat := 4

/-- The fixed reply returned when no OpenAI key is configured (main.py). -/
def notConfiguredReply : String :=
  "OpenAI API key not configured. Please add OPENAI_API_KEY to your environment."

/-- The fixed apology reply of the except branch of /chat (main.py). -/
def apologyReply : String :=
  "I'm having trouble connecting right now. Please try again in a moment."

/-- Find a session row by primary key (db.query(Session).filter(...)). -/
def findSession (db : List Session) (u : Nat) : Option Session :=
  db.find? (fun s => s.id == u)

/-- get_or_create_session from main.py: parse the caller id as a uuid,
substituting a fresh uuid4 when the parse raises ValueError; load the row
or create and commit a blank one. Returns the resolved session and the
persisted session list. -/
def get_or_create_session (db : List Session) (freshId : Nat)
    (session_id : String) : Session × List Session :=
  let session_uuid :=
    match pyParseUUID session_id with
    | some u => u
    | none => freshId
  match findSession db session_uuid with
  | some session => (session, db)
  | none =>
    let session : Session := { id := session_uuid }
    (session, db ++ [session])

/-- generate_summary from main.py: with no client, or when the OpenAI
call raises, fall back to the existing summary or the empty string; the
prompt assembly feeds only the opaque call and is not modelled. -/
def generate_summary (clientConfigured : Bool)
    (sumResult : Except String String) (existing_summary : Option String)
    (user_message assistant_reply : String) : String :=
  if clientConfigured = false then
    existing_summary.getD ""
  else
    match sumResult with
    | .ok s => s
    | .error _ => existing_summary.getD ""

/-- The category_map dict inside log_safety_intervention_to_db. -/
def category_map (category : String) : Option ModelsSafetyCategory :=
  if category = "medical" then some ModelsSafetyCategory.MEDICAL
  else if category = "legal" then some ModelsSafetyCategory.LEGAL
  else if category = "crisis" then some ModelsSafetyCategory.CRISIS
  else if category = "inappropriate" then some ModelsSafetyCategory.INAPPROPRIATE
  else none

/-- log_safety_intervention_to_db from main.py: append one row with the
truncated session id; a raising db.add/commit is swallowed by the except
and leaves the log unchanged (modelled by logOk = false). -/
def log_safety_intervention_to_db (logOk : Bool)
    (ilog : List SafetyIntervention) (session_id : String)
    (category : String) : List SafetyIntervention :=
  if logOk then
    ilog ++ [ { session_id_prefix := session_id.take 8,
                category := (category_map category).getD ModelsSafetyCategory.INAPPROPRIATE } ]
  else ilog

/-- Replace the session row carrying the given row's primary key
(db.commit() after in-place ORM mutation). -/
def updateSession (db : List Session) (t : Session) : List Session :=
  db.map (fun s => if s.id == t.id then t else s)

/-- The session-state update of a successful safe turn (main.py lines
239-254): increment message_count, stash the exchange in the temporary
fields, and on the summarization trigger replace the summary with the
generate_summary result and clear both temporary fields. -/
def postSession (o : Oracles) (session : Session)
    (user_message reply : String) : Session :=
  let s1 : Session :=
    { session with
      message_count := session.message_count + 1,
      last_user_message := some user_message,
      last_assistant_reply := some reply }
  if s1.message_count % SUMMARY_FREQUENCY = 0 then
    { s1 with
      summary := some (generate_summary o.clientConfigured o.sumResult
        session.summary user_message reply),
      last_user_message := none,
      last_assistant_reply := none }
  else s1

/-- Everything one /chat request leaves behind: the HTTP response body,
the persisted session rows, the persisted intervention rows, and two
ghost flags recording whether the reply-generation call and the
summarization step were reached. -/
structure ChatResult where
  out : ChatOut
  sessions : List Session
  interventions : List SafetyIntervention
  genInvoked : Bool
  sumInvoked : Bool
deriving DecidableEq, Repr

/-- The /chat endpoint body from main.py. Branches, in source order:
missing OpenAI key; unsafe message (log intervention, return template);
reply generation raising (except returns the apology); success with the
summarization trigger at message_count % SUMMARY_FREQUENCY == 0; the
final db.commit raising (caught by the same except: apology reply, the
in-memory mutation is not persisted). -/
def chat (search : String → String → Bool) (o : Oracles)
    (db : List Session) (ilog : List SafetyIntervention)
    (payload : ChatIn) : ChatResult :=
  if o.clientConfigured = false then
    { out := { session_id := payload.session_id, reply := notConfiguredReply,
               has_summary := false },
      sessions := db, interventions := ilog,
      genInvoked := false, sumInvoked := false }
  else
    let session := (get_or_create_session db o.freshId payload.session_id).1
    let db1 := (get_or_create_session db o.freshId payload.session_id).2
    let safety_result := check_safety search payload.message
    if safety_result.is_safe = false then
      let ilog1 :=
        match safety_result.category with
        | some c => log_safety_intervention_to_db o.logOk ilog payload.session_id c.value
        | none => ilog
      { out := { session_id := uuidStr session.id,
                 reply := safety_result.safe_response.getD "",
                 has_summary := session.summary.isSome },
        sessions := db1, interventions := ilog1,
        genInvoked := false, sumInvoked := false }
    else
      match o.genResult with
      | .error _ =>
        { out := { session_id := uuidStr session.id, reply := apologyReply,
                   has_summary := session.summary.isSome },
          sessions := db1, interventions := ilog,
          genInvoked := true, sumInvoked := false }
      | .ok reply =>
        let s2 := postSession o session payload.message reply
        if o.commitOk then
          { out := { session_id := uuidStr s2.id, reply := reply,
                     has_summary := s2.summary.isSome },
            sessions := updateSession db1 s2, interventions := ilog,
            genInvoked := true,
            sumInvoked := (session.message_count + 1) % SUMMARY_FREQUENCY == 0 }
        else
          { out := { session_id := uuidStr s2.id, reply := apologyReply,
                     has_summary := s2.summary.isSome },
            sessions := db1, interventions := ilog,
            genInvoked := true,
            sumInvoked := (session.message_count + 1) % SUMMARY_FREQUENCY == 0 }

/-- Sequential /chat turns: fold chat over a list of (payload, oracle)
pairs, threading the persisted session and intervention rows. -/
def runTurns (search : String → String → Bool) :
    List Session → List SafetyIntervention → List (ChatIn × Oracles) →
    List Session × List SafetyIntervention
  | db, ilog, [] => (db, ilog)
  | db, ilog, (payload, o) :: rest =>
    let r := chat search o db ilog payload
    runTurns search r.sessions r.interventions rest

/-- Oracle of the demonstration scenario: client configured, generation
returns "reply", summarization returns "S", both commits succeed. -/
def demoOracle : Oracles :=
  { clientConfigured := true, freshId := 0, genResult := Except.ok "reply",
    sumResult := Except.ok "S", logOk := true, commitOk := true }

/-- One demonstration turn on session uuid 0 with a safe message. -/
def demoTurn : ChatIn × Oracles :=
  ({ session_id := uuidStr 0, message := "hello" }, demoOracle)

/-- C2: a message matching at least one MEDICAL and at least one CRISIS
pattern is classified unsafe with category MEDICAL (never CRISIS), carrying
confidence 1.0 and the MEDICAL redirect template — the rule groups are
evaluated in the fixed priority order MEDICAL, LEGAL, CRISIS,
INAPPROPRIATE with first match winning across groups. -/
theorem C2_priority_order_medical_over_crisis
    (search : String → String → Bool) (message : String)
    (hmed : ∃ p ∈ medical_patterns, search p (message.toLower.trim) = true)
    (hcri : ∃ p ∈ crisis_patterns, search p (message.toLower.trim) = true) :
    check_safety search message =
      { is_safe := false
        category := some SafetyCategory.MEDICAL
        confidence := 1
        matched_patterns :=
          some (medical_patterns.filter (fun p => search p (message.toLower.trim)))
        safe_response := safe_responses SafetyCategory.MEDICAL } := by
  obtain ⟨p, hp, hs⟩ := hmed
  have hmem : p ∈ medical_patterns.filter (fun q => search q (message.toLower.trim)) :=
    List.mem_filter.2 ⟨hp, hs⟩
  unfold check_safety compiled_patterns checkSafetyGo
  cases hf : medical_patterns.filter (fun q => search q (message.toLower.trim)) with
  | nil => rw [hf] at hmem; exact absurd hmem (List.not_mem_nil p)
  | cons a as => simp [hf]

/-- C2 witness: a concrete search function and message under which both
hypotheses hold and the verdict is MEDICAL. -/
theorem C2_priority_order_medical_over_crisis_witness :
    check_safety (fun _ _ => true) "pain and crisis" =
      { is_safe := false
        category := some SafetyCategory.MEDICAL
        confidence := 1
        matched_patterns := some medical_patterns
        safe_response := safe_responses SafetyCategory.MEDICAL } := by
  have h := C2_priority_order_medical_over_crisis (fun _ _ => true) "pain and crisis"
    ⟨_, List.mem_cons_self _ _, rfl⟩ ⟨_, List.mem_cons_self _ _, rfl⟩
  simpa using h

/-- Every character emitted by hexChar on a value below 16 is a lowercase
hex digit and in particular none of the structural characters of the
parser. -/
theorem hexChar_good (m : Nat) (hm : m < 16) :
    (hexDigitVal (hexChar m)).isSome = true ∧ hexChar m ≠ 'u' ∧
      hexChar m ≠ '-' ∧ isBraceChar (hexChar m) = false := by
  interval_cases m <;> decide

/-- hexDigits always yields exactly 32 characters. -/
theorem hexDigits_length (n : Nat) : (hexDigits n).length = 32 := by
  simp [hexDigits]

/-- Every character of hexDigits is a hex digit, not u, not a hyphen and
not a brace. -/
theorem hexDigits_good (n : Nat) (c : Char) (hc : c ∈ hexDigits n) :
    (hexDigitVal c).isSome = true ∧ c ≠ 'u' ∧ c ≠ '-' ∧ isBraceChar c = false := by
  simp only [hexDigits, List.mem_map, List.mem_range] at hc
  obtain ⟨i, _, rfl⟩ := hc
  exact hexChar_good _ (Nat.mod_lt _ (by norm_num))

/-- Every character of the canonical uuid string is a hex digit or a
hyphen. -/
theorem uuidStr_chars (n : Nat) (c : Char) (hc : c ∈ (uuidStr n).data) :
    (hexDigitVal c).isSome = true ∨ c = '-' := by
  have hhex : ∀ d ∈ hexDigits n, (hexDigitVal d).isSome = true ∨ d = '-' :=
    fun d hd => Or.inl (hexDigits_good n d hd).1
  simp only [uuidStr, String.data] at hc
  rcases List.mem_append.1 hc with h | h
  on_goal 2 =>
    rcases List.mem_cons.1 h with rfl | h
    · exact Or.inr rfl
    · exact hhex c (List.drop_subset _ _ h)
  rcases List.mem_append.1 h with h | h
  on_goal 2 =>
    rcases List.mem_cons.1 h with rfl | h
    · exact Or.inr rfl
    · exact hhex c (List.drop_subset _ _ (List.take_subset _ _ h))
  rcases List.mem_append.1 h with h | h
  on_goal 2 =>
    rcases List.mem_cons.1 h with rfl | h
    · exact Or.inr rfl
    · exact hhex c (List.drop_subset _ _ (List.take_subset _ _ h))
  rcases List.mem_append.1 h with h | h
  on_goal 2 =>
    rcases List.mem_cons.1 h with rfl | h
    · exact Or.inr rfl
    · exact hhex c (List.drop_subset _ _ (List.take_subset _ _ h))
  exact hhex c (List.take_subset _ _ h)

/-- A hex digit has a code point inside one of the three digit ranges. -/
theorem hexDigitVal_ranges (c : Char) (h : (hexDigitVal c).isSome = true) :
    (48 ≤ c.toNat ∧ c.toNat ≤ 57) ∨ (97 ≤ c.toNat ∧ c.toNat ≤ 102) ∨
      (65 ≤ c.toNat ∧ c.toNat ≤ 70) := by
  unfold hexDigitVal at h
  split at h
  · next hr => exact Or.inl hr
  · split at h
    · next hr => exact Or.inr (Or.inl hr)
    · split at h
      · next hr => exact Or.inr (Or.inr hr)
      · simp at h

/-- A hex digit or hyphen is not the letter u and not a brace. -/
theorem goodChar_not_structural (c : Char)
    (h : (hexDigitVal c).isSome = true ∨ c = '-') :
    c ≠ 'u' ∧ isBraceChar c = false := by
  rcases h with h | rfl
  · have hr := hexDigitVal_ranges c h
    constructor
    · intro he
      rw [he] at hr
      revert hr
      decide
    · unfold isBraceChar
      simp only [Bool.or_eq_false_iff, decide_eq_false_iff_not]
      omega
  · exact ⟨by decide, by decide⟩

/-- removeAllSub is the identity when the first character of the pattern
occurs nowhere in the scanned list. -/
theorem removeAllSub_id (pat : List Char) (fuel : Nat)
    (cs : List Char) (h : ∀ c ∈ cs, pat.head? ≠ some c) :
    removeAllSub pat fuel cs = cs := by
  induction fuel generalizing cs with
  | zero => cases cs <;> rfl
  | succ fuel ih =>
    cases cs with
    | nil => rfl
    | cons c rest =>
      have hrest : removeAllSub pat fuel rest = rest :=
        ih rest (fun x hx => h x (List.mem_cons_of_mem _ hx))
      cases pat with
      | nil =>
        rw [removeAllSub, if_neg (by simp), hrest]
      | cons a pr =>
        have hca : a ≠ c := by
          intro he
          exact h c (List.mem_cons_self _ _) (by rw [← he]; rfl)
        have hpre : (a :: pr).isPrefixOf (c :: rest) = false := by
          simp [List.isPrefixOf, hca]
        rw [removeAllSub, if_neg (by simp [hpre]), hrest]

/-- dropWhile is the identity when no element satisfies the predicate. -/
theorem dropWhile_id (p : Char → Bool) (cs : List Char)
    (h : ∀ c ∈ cs, p c = false) : cs.dropWhile p = cs := by
  induction cs with
  | nil => rfl
  | cons c rest ih =>
    rw [List.dropWhile_cons, if_neg (by simp [h c (List.mem_cons_self _ _)])]

/-- pyStripBraces is the identity when no character is a brace. -/
theorem pyStripBraces_id (cs : List Char)
    (h : ∀ c ∈ cs, isBraceChar c = false) : pyStripBraces cs = cs := by
  unfold pyStripBraces
  rw [dropWhile_id _ _ h, dropWhile_id, List.reverse_reverse]
  intro c hc
  exact h c (List.mem_reverse.1 hc)

/-- parseHexList succeeds on any list of hex digits. -/
theorem parseHexList_isSome :
    ∀ (cs : List Char) (acc : Nat),
      (∀ c ∈ cs, (hexDigitVal c).isSome = true) →
      (parseHexList acc cs).isSome = true := by
  intro cs
  induction cs with
  | nil => intro acc h; rfl
  | cons c rest ih =>
    intro acc h
    have hc := h c (List.mem_cons_self _ _)
    cases hv : hexDigitVal c with
    | none => rw [hv] at hc; simp at hc
    | some d =>
      rw [parseHexList, hv]
      exact ih _ (fun x hx => h x (List.mem_cons_of_mem _ hx))

/-- Removing the hyphens from the canonical uuid string recovers its 32
hex digits. -/
theorem uuidStr_filter (n : Nat) :
    (uuidStr n).data.filter (fun c => c ≠ '-') = hexDigits n := by
  have hself : ∀ (l : List Char), (∀ c ∈ l, (hexDigitVal c).isSome = true) →
      l.filter (fun c => c ≠ '-') = l := by
    intro l hl
    apply List.filter_eq_self.2
    intro c hc
    simp only [decide_eq_true_eq]
    intro he
    have h2 := hl c hc
    rw [he] at h2
    exact absurd h2 (by decide)
  have hd : ∀ k, ∀ c ∈ (hexDigits n).drop k, (hexDigitVal c).isSome = true :=
    fun k c hc => (hexDigits_good n c (List.drop_subset _ _ hc)).1
  have ht : ∀ (l : List Char), (∀ c ∈ l, (hexDigitVal c).isSome = true) →
      ∀ k, ∀ c ∈ l.take k, (hexDigitVal c).isSome = true :=
    fun l hl k c hc => hl c (List.take_subset _ _ hc)
  have hyph : ∀ (l : List Char),
      ('-' :: l).filter (fun c => c ≠ '-') = l.filter (fun c => c ≠ '-') := by
    intro l
    rw [List.filter_cons, if_neg (by decide)]
  simp only [uuidStr, String.data]
  rw [List.filter_append, hyph, List.filter_append, hyph, List.filter_append,
    hyph, List.filter_append, hyph]
  rw [hself _ (ht _ (fun c hc => (hexDigits_good n c hc).1) 8),
    hself _ (ht _ (hd 8) 4), hself _ (ht _ (hd 12) 4),
    hself _ (ht _ (hd 16) 4), hself _ (hd 20)]
  have e20 : (hexDigits n).drop 16 =
      ((hexDigits n).drop 16).take 4 ++ (hexDigits n).drop 20 := by
    conv_lhs => rw [← List.take_append_drop 4 ((hexDigits n).drop 16)]
    rw [List.drop_drop]
  have e16 : (hexDigits n).drop 12 =
      ((hexDigits n).drop 12).take 4 ++ (hexDigits n).drop 16 := by
    conv_lhs => rw [← List.take_append_drop 4 ((hexDigits n).drop 12)]
    rw [List.drop_drop]
  have e12 : (hexDigits n).drop 8 =
      ((hexDigits n).drop 8).take 4 ++ (hexDigits n).drop 12 := by
    conv_lhs => rw [← List.take_append_drop 4 ((hexDigits n).drop 8)]
    rw [List.drop_drop]
  conv_rhs => rw [← List.take_append_drop 8 (hexDigits n), e12, e16, e20]
  simp [List.append_assoc]

/-- The uuid.UUID cleanup leaves the canonical uuid string's 32 hex digits. -/
theorem uuidClean_uuidStr (n : Nat) : uuidClean (uuidStr n) = hexDigits n := by
  have hchars := uuidStr_chars n
  have hnu : ∀ c ∈ (uuidStr n).data, ("urn:".data).head? ≠ some c := by
    intro c hc he
    have : c = 'u' := by
      have : some 'u' = some c := he
      exact (Option.some.inj this).symm
    exact (goodChar_not_structural c (hchars c hc)).1 (by rw [this])
  have hnu2 : ∀ c ∈ (uuidStr n).data, ("uuid:".data).head? ≠ some c := by
    intro c hc he
    have : c = 'u' := by
      have : some 'u' = some c := he
      exact (Option.some.inj this).symm
    exact (goodChar_not_structural c (hchars c hc)).1 (by rw [this])
  have hnb : ∀ c ∈ (uuidStr n).data, isBraceChar c = false :=
    fun c hc => (goodChar_not_structural c (hchars c hc)).2
  unfold uuidClean
  rw [removeAllSub_id _ _ _ hnu, removeAllSub_id _ _ _ hnu2,
    pyStripBraces_id _ hnb, uuidStr_filter]

/-- Canonical uuid strings always parse back as uuids, for every value
(the cleanup removes the four hyphens and reads 32 hex digits). -/
theorem pyParseUUID_uuidStr_isSome (n : Nat) :
    (pyParseUUID (uuidStr n)).isSome = true := by
  unfold pyParseUUID
  rw [uuidClean_uuidStr, if_pos (hexDigits_length n)]
  exact parseHexList_isSome _ _ (fun c hc => (hexDigits_good n c hc).1)

/-- A find that succeeds on the first rows keeps its result when more
rows are appended. -/
theorem findSession_append_of_some (db ext : List Session) (u : Nat)
    (s : Session) (h : findSession db u = some s) :
    findSession (db ++ ext) u = some s := by
  unfold findSession at *
  simp [List.find?_append, h]

/-- A find that fails on the first rows continues into appended rows. -/
theorem findSession_append_of_none (db ext : List Session) (u : Nat)
    (h : findSession db u = none) :
    findSession (db ++ ext) u = findSession ext u := by
  unfold findSession at *
  simp [List.find?_append, h]

/-- A found session row carries the searched primary key. -/
theorem findSession_id (db : List Session) (u : Nat) (s : Session)
    (h : findSession db u = some s) : s.id = u := by
  unfold findSession at h
  have := List.find?_some h
  simpa using this

/-- The id of the session resolved by get_or_create_session is the parsed
uuid, or the fresh uuid4 when the parse fails. -/
theorem get_or_create_session_id (db : List Session) (freshId : Nat)
    (session_id : String) :
    (get_or_create_session db freshId session_id).1.id =
      (match pyParseUUID session_id with
       | some u => u
       | none => freshId) := by
  unfold get_or_create_session
  cases hp : pyParseUUID session_id with
  | none =>
    simp only
    cases hf : findSession db freshId with
    | none => simp [hf]
    | some s => simp [hf, findSession_id db freshId s hf]
  | some u =>
    simp only
    cases hf : findSession db u with
    | none => simp [hf]
    | some s => simp [hf, findSession_id db u s hf]

/-- The resolved session is stored in the post-resolution session list
under its own id. -/
theorem get_or_create_session_found (db : List Session) (freshId : Nat)
    (session_id : String) :
    findSession (get_or_create_session db freshId session_id).2
      (get_or_create_session db freshId session_id).1.id =
      some (get_or_create_session db freshId session_id).1 := by
  unfold get_or_create_session
  cases hp : pyParseUUID session_id with
  | none =>
    simp only
    cases hf : findSession db freshId with
    | some s =>
      simp only [hf]
      rw [findSession_id db freshId s hf]
      exact hf
    | none =>
      simp only [hf]
      rw [findSession_append_of_none _ _ _ hf]
      simp [findSession]
  | some u =>
    simp only
    cases hf : findSession db u with
    | some s =>
      simp only [hf]
      rw [findSession_id db u s hf]
      exact hf
    | none =>
      simp only [hf]
      rw [findSession_append_of_none _ _ _ hf]
      simp [findSession]

/-- Updating a row with a different primary key does not change what a
find for this key returns. -/
theorem findSession_update_of_ne (db : List Session) (t : Session)
    (u : Nat) (hne : u ≠ t.id) :
    findSession (updateSession db t) u = findSession db u := by
  unfold findSession updateSession
  induction db with
  | nil => rfl
  | cons a rest ih =>
    simp only [List.map_cons]
    by_cases hat : a.id = t.id
    · rw [if_pos (by simp [hat])]
      rw [List.find?_cons_of_neg _ (by simp [Ne.symm hne]),
        List.find?_cons_of_neg _ (by simp [hat, Ne.symm hne])]
      exact ih
    · rw [if_neg (by simp [hat])]
      by_cases hau : a.id = u
      · rw [List.find?_cons_of_pos _ (by simp [hau]),
          List.find?_cons_of_pos _ (by simp [hau])]
      · rw [List.find?_cons_of_neg _ (by simp [hau]),
          List.find?_cons_of_neg _ (by simp [hau])]
        exact ih

/-- Updating a row that is present makes a find for its key return the
updated row. -/
theorem findSession_update_self (db : List Session) (t : Session)
    (h : (findSession db t.id).isSome = true) :
    findSession (updateSession db t) t.id = some t := by
  unfold findSession updateSession at *
  induction db with
  | nil => simp at h
  | cons a rest ih =>
    simp only [List.map_cons]
    by_cases hat : a.id = t.id
    · rw [if_pos (by simp [hat])]
      exact List.find?_cons_of_pos _ (by simp)
    · rw [if_neg (by simp [hat])]
      rw [List.find?_cons_of_neg _ (by simp [hat])]
      apply ih
      rw [List.find?_cons_of_neg _ (by simp [hat])] at h
      exact h

/-- Every unsafe verdict of check_safety carries a category, confidence
1.0 and the redirect template of that category. -/
theorem check_safety_unsafe_shape (search : String → String → Bool)
    (message : String)
    (h : (check_safety search message).is_safe = false) :
    ∃ c, (check_safety search message).category = some c ∧
      (check_safety search message).safe_response = safe_responses c ∧
      (check_safety search message).confidence = 1 := by
  unfold check_safety compiled_patterns at *
  simp only [checkSafetyGo] at *
  split_ifs at * <;> simp_all

/-- C3: on every message classified unsafe (with the OpenAI client
configured and the intervention-log commit succeeding), /chat appends
exactly one SafetyIntervention row holding the category and the 8-char
session prefix, replies with the category's fixed redirect template,
never reaches the generation call or the summarization step, and leaves
the persisted session rows - in particular the resolved session's
message_count, summary and both pending fields - exactly as
get_or_create_session left them. -/
theorem C3_unsafe_message_effects
    (search : String → String → Bool) (o : Oracles) (db : List Session)
    (ilog : List SafetyIntervention) (payload : ChatIn)
    (hclient : o.clientConfigured = true)
    (hflag : (check_safety search payload.message).is_safe = false)
    (hlog : o.logOk = true) :
    (∀ c, (check_safety search payload.message).category = some c →
      (chat search o db ilog payload).interventions =
        ilog ++ [ { session_id_prefix := payload.session_id.take 8,
                    category := (category_map c.value).getD
                      ModelsSafetyCategory.INAPPROPRIATE } ] ∧
      (chat search o db ilog payload).out.reply = (safe_responses c).getD "") ∧
    (chat search o db ilog payload).genInvoked = false ∧
    (chat search o db ilog payload).sumInvoked = false ∧
    (chat search o db ilog payload).sessions =
      (get_or_create_session db o.freshId payload.session_id).2 ∧
    findSession (chat search o db ilog payload).sessions
        (get_or_create_session db o.freshId payload.session_id).1.id =
      some (get_or_create_session db o.freshId payload.session_id).1 := by
  obtain ⟨c₀, hcat, hresp, _⟩ := check_safety_unsafe_shape search payload.message hflag
  refine ⟨?_, ?_, ?_, ?_, ?_⟩
  · intro c hc
    rw [hcat] at hc
    obtain rfl : c₀ = c := Option.some.inj hc
    constructor
    · simp [chat, hclient, hflag, hcat, log_safety_intervention_to_db, hlog]
    · simp [chat, hclient, hflag, hresp]
  · simp [chat, hclient, hflag]
  · simp [chat, hclient, hflag]
  · simp [chat, hclient, hflag]
  · have hs : (chat search o db ilog payload).sessions =
        (get_or_create_session db o.freshId payload.session_id).2 := by
      simp [chat, hclient, hflag]
    rw [hs]
    exact get_or_create_session_found db o.freshId payload.session_id

/-- C3 witness: a concrete unsafe turn (match-everything search, so the
verdict is MEDICAL) appends one MEDICAL row with the first 8 characters
of the caller-supplied session id and does not invoke generation. -/
theorem C3_unsafe_message_effects_witness :
    (chat (fun _ _ => true)
        { clientConfigured := true, freshId := 7, genResult := Except.ok "r",
          sumResult := Except.ok "s", logOk := true, commitOk := true }
        [] [] { session_id := "abcdefghij", message := "hello" }).interventions =
      [ { session_id_prefix := "abcdefgh",
          category := ModelsSafetyCategory.MEDICAL } ] ∧
    (chat (fun _ _ => true)
        { clientConfigured := true, freshId := 7, genResult := Except.ok "r",
          sumResult := Except.ok "s", logOk := true, commitOk := true }
        [] [] { session_id := "abcdefghij", message := "hello" }).genInvoked = false := by
  have h := C3_unsafe_message_effects (fun _ _ => true)
    { clientConfigured := true, freshId := 7, genResult := Except.ok "r",
      sumResult := Except.ok "s", logOk := true, commitOk := true }
    [] [] { session_id := "abcdefghij", message := "hello" }
    rfl (by decide) rfl
  refine ⟨?_, h.2.1⟩
  have h1 := (h.1 SafetyCategory.MEDICAL (by decide)).1
  rw [h1]
  decide

/-- Execution equation for /chat when the client is configured, the
message is safe and the generation call raises: the except branch
returns the fixed apology and nothing is mutated. -/
theorem chat_genFail_eq (search : String → String → Bool) (o : Oracles)
    (db : List Session) (ilog : List SafetyIntervention) (payload : ChatIn)
    (e : String) (hclient : o.clientConfigured = true)
    (hsafe : (check_safety search payload.message).is_safe = true)
    (hgen : o.genResult = Except.error e) :
    chat search o db ilog payload =
      { out := { session_id :=
                   uuidStr (get_or_create_session db o.freshId payload.session_id).1.id,
                 reply := apologyReply,
                 has_summary :=
                   (get_or_create_session db o.freshId payload.session_id).1.summary.isSome },
        sessions := (get_or_create_session db o.freshId payload.session_id).2,
        interventions := ilog, genInvoked := true, sumInvoked := false } := by
  simp [chat, hclient, hsafe, hgen]

/-- Execution equation for /chat on a safe message with successful
generation and successful final commit. -/
theorem chat_ok_commit_eq (search : String → String → Bool) (o : Oracles)
    (db : List Session) (ilog : List SafetyIntervention) (payload : ChatIn)
    (reply : String) (hclient : o.clientConfigured = true)
    (hsafe : (check_safety search payload.message).is_safe = true)
    (hgen : o.genResult = Except.ok reply) (hcommit : o.commitOk = true) :
    chat search o db ilog payload =
      { out := { session_id :=
                   uuidStr (postSession o
                     (get_or_create_session db o.freshId payload.session_id).1
                     payload.message reply).id,
                 reply := reply,
                 has_summary :=
                   (postSession o
                     (get_or_create_session db o.freshId payload.session_id).1
                     payload.message reply).summary.isSome },
        sessions := updateSession
          (get_or_create_session db o.freshId payload.session_id).2
          (postSession o (get_or_create_session db o.freshId payload.session_id).1
            payload.message reply),
        interventions := ilog, genInvoked := true,
        sumInvoked :=
          ((get_or_create_session db o.freshId payload.session_id).1.message_count + 1)
            % SUMMARY_FREQUENCY == 0 } := by
  simp [chat, hclient, hsafe, hgen, hcommit]

/-- Execution equation for /chat on a safe message with successful
generation but a raising final db.commit: the except branch returns the
apology built from the in-memory mutated session, and the persisted rows
stay as get_or_create_session left them. -/
theorem chat_ok_nocommit_eq (search : String → String → Bool) (o : Oracles)
    (db : List Session) (ilog : List SafetyIntervention) (payload : ChatIn)
    (reply : String) (hclient : o.clientConfigured = true)
    (hsafe : (check_safety search payload.message).is_safe = true)
    (hgen : o.genResult = Except.ok reply) (hcommit : o.commitOk = false) :
    chat search o db ilog payload =
      { out := { session_id :=
                   uuidStr (postSession o
                     (get_or_create_session db o.freshId payload.session_id).1
                     payload.message reply).id,
                 reply := apologyReply,
                 has_summary :=
                   (postSession o
                     (get_or_create_session db o.freshId payload.session_id).1
                     payload.message reply).summary.isSome },
        sessions := (get_or_create_session db o.freshId payload.session_id).2,
        interventions := ilog, genInvoked := true,
        sumInvoked :=
          ((get_or_create_session db o.freshId payload.session_id).1.message_count + 1)
            % SUMMARY_FREQUENCY == 0 } := by
  simp [chat, hclient, hsafe, hgen, hcommit]

/-- postSession never changes the session id. -/
theorem postSession_id (o : Oracles) (s : Session) (m r : String) :
    (postSession o s m r).id = s.id := by
  by_cases h : (s.message_count + 1) % SUMMARY_FREQUENCY = 0 <;>
    simp [postSession, h]

/-- postSession always increments message_count by exactly one. -/
theorem postSession_message_count (o : Oracles) (s : Session) (m r : String) :
    (postSession o s m r).message_count = s.message_count + 1 := by
  by_cases h : (s.message_count + 1) % SUMMARY_FREQUENCY = 0 <;>
    simp [postSession, h]

/-- Off the summarization trigger, postSession stores the exchange in the
pending fields and keeps the summary. -/
theorem postSession_no_trigger (o : Oracles) (s : Session) (m r : String)
    (h : (s.message_count + 1) % SUMMARY_FREQUENCY ≠ 0) :
    (postSession o s m r).last_user_message = some m ∧
    (postSession o s m r).last_assistant_reply = some r ∧
    (postSession o s m r).summary = s.summary := by
  simp [postSession, h]

/-- On the summarization trigger, postSession replaces the summary with
the generate_summary result and clears both pending fields. -/
theorem postSession_trigger (o : Oracles) (s : Session) (m r : String)
    (h : (s.message_count + 1) % SUMMARY_FREQUENCY = 0) :
    (postSession o s m r).summary =
      some (generate_summary o.clientConfigured o.sumResult s.summary m r) ∧
    (postSession o s m r).last_user_message = none ∧
    (postSession o s m r).last_assistant_reply = none := by
  simp [postSession, h]

/-- After a committed safe turn, the resolved session's row holds exactly
the postSession state. -/
theorem chat_ok_commit_find (search : String → String → Bool) (o : Oracles)
    (db : List Session) (ilog : List SafetyIntervention) (payload : ChatIn)
    (reply : String) (hclient : o.clientConfigured = true)
    (hsafe : (check_safety search payload.message).is_safe = true)
    (hgen : o.genResult = Except.ok reply) (hcommit : o.commitOk = true) :
    findSession (chat search o db ilog payload).sessions
      (get_or_create_session db o.freshId payload.session_id).1.id =
      some (postSession o (get_or_create_session db o.freshId payload.session_id).1
        payload.message reply) := by
  rw [chat_ok_commit_eq search o db ilog payload reply hclient hsafe hgen hcommit]
  have hid := postSession_id o (get_or_create_session db o.freshId payload.session_id).1
    payload.message reply
  rw [← hid]
  apply findSession_update_self
  rw [hid, get_or_create_session_found db o.freshId payload.session_id]
  rfl

/-- C4: on every safe message whose generation call succeeds (and whose
final commit goes through), the stored message_count is the prior count
plus one, the pending fields hold this turn's exchange whenever the
summarization trigger does not fire (and are cleared when it does), and
the reply returned is the generated one. -/
theorem C4_safe_success_increments_count
    (search : String → String → Bool) (o : Oracles) (db : List Session)
    (ilog : List SafetyIntervention) (payload : ChatIn) (reply : String)
    (hclient : o.clientConfigured = true)
    (hsafe : (check_safety search payload.message).is_safe = true)
    (hgen : o.genResult = Except.ok reply) (hcommit : o.commitOk = true) :
    findSession (chat search o db ilog payload).sessions
      (get_or_create_session db o.freshId payload.session_id).1.id =
      some (postSession o (get_or_create_session db o.freshId payload.session_id).1
        payload.message reply) ∧
    (postSession o (get_or_create_session db o.freshId payload.session_id).1
        payload.message reply).message_count =
      (get_or_create_session db o.freshId payload.session_id).1.message_count + 1 ∧
    (((get_or_create_session db o.freshId payload.session_id).1.message_count + 1)
        % SUMMARY_FREQUENCY ≠ 0 →
      (postSession o (get_or_create_session db o.freshId payload.session_id).1
          payload.message reply).last_user_message = some payload.message ∧
      (postSession o (get_or_create_session db o.freshId payload.session_id).1
          payload.message reply).last_assistant_reply = some reply) ∧
    (((get_or_create_session db o.freshId payload.session_id).1.message_count + 1)
        % SUMMARY_FREQUENCY = 0 →
      (postSession o (get_or_create_session db o.freshId payload.session_id).1
          payload.message reply).last_user_message = none ∧
      (postSession o (get_or_create_session db o.freshId payload.session_id).1
          payload.message reply).last_assistant_reply = none) ∧
    (chat search o db ilog payload).out.reply = reply := by
  refine ⟨chat_ok_commit_find search o db ilog payload reply hclient hsafe hgen hcommit,
    postSession_message_count _ _ _ _, ?_, ?_, ?_⟩
  · intro h
    exact ⟨(postSession_no_trigger _ _ _ _ h).1, (postSession_no_trigger _ _ _ _ h).2.1⟩
  · intro h
    exact ⟨(postSession_trigger _ _ _ _ h).2.1, (postSession_trigger _ _ _ _ h).2.2⟩
  · rw [chat_ok_commit_eq search o db ilog payload reply hclient hsafe hgen hcommit]

/-- C4 witness: a safe first turn on a fresh session (invalid caller id,
fresh uuid 3) stores message_count 1 with the exchange pending. -/
theorem C4_safe_success_increments_count_witness :
    findSession (chat (fun _ _ => false)
        { clientConfigured := true, freshId := 3, genResult := Except.ok "hi",
          sumResult := Except.ok "s", logOk := true, commitOk := true }
        [] [] { session_id := "xyz", message := "hello" }).sessions
      (get_or_create_session [] 3 "xyz").1.id =
      some (postSession
        { clientConfigured := true, freshId := 3, genResult := Except.ok "hi",
          sumResult := Except.ok "s", logOk := true, commitOk := true }
        (get_or_create_session [] 3 "xyz").1 "hello" "hi") ∧
    (postSession
        { clientConfigured := true, freshId := 3, genResult := Except.ok "hi",
          sumResult := Except.ok "s", logOk := true, commitOk := true }
        (get_or_create_session [] 3 "xyz").1 "hello" "hi").message_count =
      (get_or_create_session [] 3 "xyz").1.message_count + 1 := by
  have h := C4_safe_success_increments_count (fun _ _ => false)
    { clientConfigured := true, freshId := 3, genResult := Except.ok "hi",
      sumResult := Except.ok "s", logOk := true, commitOk := true }
    [] [] { session_id := "xyz", message := "hello" } "hi"
    rfl (by decide) rfl rfl
  exact ⟨h.1, h.2.1⟩

/-- C6: on every safe message whose generation call raises, /chat replies
with the fixed apology (independently of the error text, which therefore
never reaches the reply), persists nothing beyond the session resolution,
leaves the resolved session's fields untouched, logs nothing, and never
reaches the summarization step. -/
theorem C6_generation_failure_is_noop
    (search : String → String → Bool) (o : Oracles) (db : List Session)
    (ilog : List SafetyIntervention) (payload : ChatIn) (e : String)
    (hclient : o.clientConfigured = true)
    (hsafe : (check_safety search payload.message).is_safe = true)
    (hgen : o.genResult = Except.error e) :
    (chat search o db ilog payload).out.reply = apologyReply ∧
    (chat search o db ilog payload).sessions =
      (get_or_create_session db o.freshId payload.session_id).2 ∧
    findSession (chat search o db ilog payload).sessions
        (get_or_create_session db o.freshId payload.session_id).1.id =
      some (get_or_create_session db o.freshId payload.session_id).1 ∧
    (chat search o db ilog payload).interventions = ilog ∧
    (chat search o db ilog payload).sumInvoked = false := by
  rw [chat_genFail_eq search o db ilog payload e hclient hsafe hgen]
  exact ⟨rfl, rfl, get_or_create_session_found db o.freshId payload.session_id, rfl, rfl⟩

/-- C6 witness: generation failure on a safe message over an existing
session with message_count 2 leaves the row bit-for-bit unchanged and
returns the apology. -/
theorem C6_generation_failure_is_noop_witness :
    (chat (fun _ _ => false)
        { clientConfigured := true, freshId := 9, genResult := Except.error "boom",
          sumResult := Except.ok "s", logOk := true, commitOk := true }
        [ { id := 9, summary := some "old", message_count := 2,
            last_user_message := some "u", last_assistant_reply := some "a" } ]
        [] { session_id := uuidStr 9, message := "hello" }).out.reply = apologyReply ∧
    (chat (fun _ _ => false)
        { clientConfigured := true, freshId := 9, genResult := Except.error "boom",
          sumResult := Except.ok "s", logOk := true, commitOk := true }
        [ { id := 9, summary := some "old", message_count := 2,
            last_user_message := some "u", last_assistant_reply := some "a" } ]
        [] { session_id := uuidStr 9, message := "hello" }).sessions =
      [ { id := 9, summary := some "old", message_count := 2,
          last_user_message := some "u", last_assistant_reply := some "a" } ] := by
  have h := C6_generation_failure_is_noop (fun _ _ => false)
    { clientConfigured := true, freshId := 9, genResult := Except.error "boom",
      sumResult := Except.ok "s", logOk := true, commitOk := true }
    [ { id := 9, summary := some "old", message_count := 2,
        last_user_message := some "u", last_assistant_reply := some "a" } ]
    [] { session_id := uuidStr 9, message := "hello" } "boom"
    rfl (by decide) rfl
  refine ⟨h.1, ?_⟩
  rw [h.2.1]
  decide

/-- A natural is divisible with zero remainder exactly when it is a
positive multiple, provided it is positive. -/
theorem mod_eq_zero_iff_pos_multiple (n m : Nat) (hn : 0 < n) :
    n % m = 0 ↔ ∃ k, 0 < k ∧ n = m * k := by
  constructor
  · intro h
    obtain ⟨k, hk⟩ := Nat.dvd_of_mod_eq_zero h
    refine ⟨k, ?_, hk⟩
    rcases Nat.eq_zero_or_pos k with rfl | hpos
    · omega
    · exact hpos
  · rintro ⟨k, hk, rfl⟩
    simp [Nat.mul_mod_right]

/-- C5: with the client configured, the summarization step of a turn is
reached exactly when the message is safe, generation succeeded and the
post-increment message_count is a positive multiple of SUMMARY_FREQUENCY;
after a committed turn whose trigger fired, both pending fields of the
stored session are absent; and on a fresh session with the default
frequency 4, the summary is absent after safe turns 1 to 3 and present
after turn 4. -/
theorem C5_summarization_trigger_iff
    (search : String → String → Bool) (o : Oracles) (db : List Session)
    (ilog : List SafetyIntervention) (payload : ChatIn)
    (hclient : o.clientConfigured = true) :
    ((chat search o db ilog payload).sumInvoked = true ↔
      ((check_safety search payload.message).is_safe = true ∧
       (∃ r, o.genResult = Except.ok r) ∧
       ∃ k, 0 < k ∧
         (get_or_create_session db o.freshId payload.session_id).1.message_count + 1 =
           SUMMARY_FREQUENCY * k)) ∧
    (∀ reply, o.genResult = Except.ok reply → o.commitOk = true →
      (check_safety search payload.message).is_safe = true →
      ((get_or_create_session db o.freshId payload.session_id).1.message_count + 1)
          % SUMMARY_FREQUENCY = 0 →
      findSession (chat search o db ilog payload).sessions
        (get_or_create_session db o.freshId payload.session_id).1.id =
        some (postSession o (get_or_create_session db o.freshId payload.session_id).1
          payload.message reply) ∧
      (postSession o (get_or_create_session db o.freshId payload.session_id).1
          payload.message reply).last_user_message = none ∧
      (postSession o (get_or_create_session db o.freshId payload.session_id).1
          payload.message reply).last_assistant_reply = none) ∧
    (findSession (runTurns (fun _ _ => false) [] [] (List.replicate 1 demoTurn)).1 0 =
      some { id := 0, summary := none, message_count := 1,
             last_user_message := some "hello", last_assistant_reply := some "reply" }) ∧
    (findSession (runTurns (fun _ _ => false) [] [] (List.replicate 2 demoTurn)).1 0 =
      some { id := 0, summary := none, message_count := 2,
             last_user_message := some "hello", last_assistant_reply := some "reply" }) ∧
    (findSession (runTurns (fun _ _ => false) [] [] (List.replicate 3 demoTurn)).1 0 =
      some { id := 0, summary := none, message_count := 3,
             last_user_message := some "hello", last_assistant_reply := some "reply" }) ∧
    (findSession (runTurns (fun _ _ => false) [] [] (List.replicate 4 demoTurn)).1 0 =
      some { id := 0, summary := some "S", message_count := 4,
             last_user_message := none, last_assistant_reply := none }) := by
  refine ⟨?_, ?_, by decide, by decide, by decide, by decide⟩
  · by_cases hsafe : (check_safety search payload.message).is_safe = true
    · cases hgen : o.genResult with
      | error e =>
        rw [chat_genFail_eq search o db ilog payload e hclient hsafe hgen]
        simp
      | ok reply =>
        have hmain : (((get_or_create_session db o.freshId payload.session_id).1.message_count + 1)
            % SUMMARY_FREQUENCY == 0) = true ↔
            ((check_safety search payload.message).is_safe = true ∧
             (∃ r, o.genResult = Except.ok r) ∧
             ∃ k, 0 < k ∧
               (get_or_create_session db o.freshId payload.session_id).1.message_count + 1 =
                 SUMMARY_FREQUENCY * k) := by
          rw [beq_iff_eq, mod_eq_zero_iff_pos_multiple _ _ (Nat.succ_pos _)]
          simp [hsafe, hgen]
        cases hcommit : o.commitOk with
        | true =>
          rw [chat_ok_commit_eq search o db ilog payload reply hclient hsafe hgen hcommit]
          simpa [hgen] using hmain
        | false =>
          rw [chat_ok_nocommit_eq search o db ilog payload reply hclient hsafe hgen hcommit]
          simpa [hgen] using hmain
    · have hsafe' : (check_safety search payload.message).is_safe = false := by
        cases h : (check_safety search payload.message).is_safe with
        | true => exact absurd h hsafe
        | false => rfl
      constructor
      · intro h
        have : (chat search o db ilog payload).sumInvoked = false := by
          simp [chat, hclient, hsafe']
        rw [h] at this
        exact absurd this (by simp)
      · rintro ⟨h1, -⟩
        exact absurd h1 hsafe
  · intro reply hgen hcommit hsafe htrig
    exact ⟨chat_ok_commit_find search o db ilog payload reply hclient hsafe hgen hcommit,
      (postSession_trigger _ _ _ _ htrig).2.1, (postSession_trigger _ _ _ _ htrig).2.2⟩

/-- C5 witness: a safe committed turn on a session with message_count 3
reaches the summarization step (post-increment count 4 = 4 * 1). -/
theorem C5_summarization_trigger_iff_witness :
    (chat (fun _ _ => false) demoOracle
        [ { id := 0, summary := none, message_count := 3,
            last_user_message := some "u", last_assistant_reply := some "a" } ]
        [] { session_id := uuidStr 0, message := "hello" }).sumInvoked = true := by
  have h := C5_summarization_trigger_iff (fun _ _ => false) demoOracle
    [ { id := 0, summary := none, message_count := 3,
        last_user_message := some "u", last_assistant_reply := some "a" } ]
    [] { session_id := uuidStr 0, message := "hello" } rfl
  exact h.1.mpr ⟨by decide, ⟨"reply", rfl⟩, 1, by decide, by decide⟩

/-- C1 counterexample: on a safe committed turn with prior summary absent
and message_count 3, when the summarization call fails the stored summary
becomes the empty string (not the prior absent summary) and both pending
fields are cleared (not left populated with the exchange), refuting the
claim as stated at this concrete input. -/
theorem C1_summarization_failure_counterexample :
    findSession (chat (fun _ _ => false)
        { clientConfigured := true, freshId := 5, genResult := Except.ok "reply",
          sumResult := Except.error "fail", logOk := true, commitOk := true }
        [ { id := 5, summary := none, message_count := 3,
            last_user_message := some "u", last_assistant_reply := some "a" } ]
        [] { session_id := uuidStr 5, message := "hello" }).sessions 5 =
      some { id := 5, summary := some "", message_count := 4,
             last_user_message := none, last_assistant_reply := none } ∧
    ¬ ((findSession (chat (fun _ _ => false)
        { clientConfigured := true, freshId := 5, genResult := Except.ok "reply",
          sumResult := Except.error "fail", logOk := true, commitOk := true }
        [ { id := 5, summary := none, message_count := 3,
            last_user_message := some "u", last_assistant_reply := some "a" } ]
        [] { session_id := uuidStr 5, message := "hello" }).sessions 5).map
          Session.summary = some (none : Option String)) ∧
    (findSession (chat (fun _ _ => false)
        { clientConfigured := true, freshId := 5, genResult := Except.ok "reply",
          sumResult := Except.error "fail", logOk := true, commitOk := true }
        [ { id := 5, summary := none, message_count := 3,
            last_user_message := some "u", last_assistant_reply := some "a" } ]
        [] { session_id := uuidStr 5, message := "hello" }).sessions 5).map
      Session.last_user_message = some (none : Option String) := by
  refine ⟨by decide, by decide, by decide⟩

/-- C1 amended: on a safe committed turn whose summarization trigger
fires and whose summarization call fails, the turn still succeeds and
returns the generated reply, but the stored summary becomes the prior
summary when one existed and the empty string otherwise, and both pending
fields are cleared. -/
theorem C1_summarization_failure_amended
    (search : String → String → Bool) (o : Oracles) (db : List Session)
    (ilog : List SafetyIntervention) (payload : ChatIn) (reply e : String)
    (hclient : o.clientConfigured = true)
    (hsafe : (check_safety search payload.message).is_safe = true)
    (hgen : o.genResult = Except.ok reply) (hcommit : o.commitOk = true)
    (hsum : o.sumResult = Except.error e)
    (htrig : ((get_or_create_session db o.freshId payload.session_id).1.message_count + 1)
        % SUMMARY_FREQUENCY = 0) :
    (chat search o db ilog payload).out.reply = reply ∧
    findSession (chat search o db ilog payload).sessions
      (get_or_create_session db o.freshId payload.session_id).1.id =
      some (postSession o (get_or_create_session db o.freshId payload.session_id).1
        payload.message reply) ∧
    (postSession o (get_or_create_session db o.freshId payload.session_id).1
        payload.message reply).summary =
      some ((get_or_create_session db o.freshId payload.session_id).1.summary.getD "") ∧
    (postSession o (get_or_create_session db o.freshId payload.session_id).1
        payload.message reply).last_user_message = none ∧
    (postSession o (get_or_create_session db o.freshId payload.session_id).1
        payload.message reply).last_assistant_reply = none := by
  refine ⟨?_, chat_ok_commit_find search o db ilog payload reply hclient hsafe hgen hcommit,
    ?_, (postSession_trigger _ _ _ _ htrig).2.1, (postSession_trigger _ _ _ _ htrig).2.2⟩
  · rw [chat_ok_commit_eq search o db ilog payload reply hclient hsafe hgen hcommit]
  · rw [(postSession_trigger _ _ _ _ htrig).1]
    simp [generate_summary, hclient, hsum]

/-- C1 amended witness: the counterexample input, through the amended
amended theorem: the reply is the generated one and the stored summary is the
empty string. -/
theorem C1_summarization_failure_amended_witness :
    (chat (fun _ _ => false)
        { clientConfigured := true, freshId := 5, genResult := Except.ok "reply",
          sumResult := Except.error "fail", logOk := true, commitOk := true }
        [ { id := 5, summary := none, message_count := 3,
            last_user_message := some "u", last_assistant_reply := some "a" } ]
        [] { session_id := uuidStr 5, message := "hello" }).out.reply = "reply" ∧
    (postSession
        { clientConfigured := true, freshId := 5, genResult := Except.ok "reply",
          sumResult := Except.error "fail", logOk := true, commitOk := true }
        (get_or_create_session
          [ { id := 5, summary := none, message_count := 3,
              last_user_message := some "u", last_assistant_reply := some "a" } ]
          5 (uuidStr 5)).1 "hello" "reply").summary = some "" := by
  have h := C1_summarization_failure_amended (fun _ _ => false)
    { clientConfigured := true, freshId := 5, genResult := Except.ok "reply",
      sumResult := Except.error "fail", logOk := true, commitOk := true }
    [ { id := 5, summary := none, message_count := 3,
        last_user_message := some "u", last_assistant_reply := some "a" } ]
    [] { session_id := uuidStr 5, message := "hello" } "reply" "fail"
    rfl (by decide) rfl rfl rfl (by decide)
  refine ⟨h.1, ?_⟩
  have h2 := h.2.2.1
  rw [h2]
  decide

/-- C7: evaluating /chat at the failing input - a safe message over an
existing session, generation succeeding, the final db.commit raising -
shows the store failure is masked: the handler returns the fixed apology
as a normal-looking reply instead of propagating the error, and the
persisted rows are unchanged. -/
theorem C7_store_failure_masked_as_apology :
    (chat (fun _ _ => false)
        { clientConfigured := true, freshId := 6, genResult := Except.ok "reply",
          sumResult := Except.ok "S", logOk := true, commitOk := false }
        [ { id := 6, summary := none, message_count := 0,
            last_user_message := none, last_assistant_reply := none } ]
        [] { session_id := uuidStr 6, message := "hello" }).out.reply = apologyReply ∧
    (chat (fun _ _ => false)
        { clientConfigured := true, freshId := 6, genResult := Except.ok "reply",
          sumResult := Except.ok "S", logOk := true, commitOk := false }
        [ { id := 6, summary := none, message_count := 0,
            last_user_message := none, last_assistant_reply := none } ]
        [] { session_id := uuidStr 6, message := "hello" }).sessions =
      [ { id := 6, summary := none, message_count := 0,
          last_user_message := none, last_assistant_reply := none } ] := by
  refine ⟨by decide, by decide⟩

/-- C9 counterexample: a caller-supplied session identifier of 3
characters is logged in full - the stored prefix equals the entire
identifier - both directly in log_safety_intervention_to_db and through a
full unsafe /chat turn, refuting "never the full identifier, for every
identifier length". -/
theorem C9_short_identifier_counterexample :
    log_safety_intervention_to_db true [] "abc" "medical" =
      [ { session_id_prefix := "abc", category := ModelsSafetyCategory.MEDICAL } ] ∧
    "abc".take 8 = "abc" ∧
    (chat (fun _ _ => true)
        { clientConfigured := true, freshId := 2, genResult := Except.ok "r",
          sumResult := Except.ok "s", logOk := true, commitOk := true }
        [] [] { session_id := "abc", message := "x" }).interventions =
      [ { session_id_prefix := "abc", category := ModelsSafetyCategory.MEDICAL } ] := by
  refine ⟨by decide, by decide, by decide⟩

/-- C9 amended: every appended intervention row stores exactly the first
8 characters of the session identifier, hence at most 8 characters; for
identifiers longer than 8 characters this is never the full identifier. -/
theorem C9_prefix_truncation_amended
    (logOk : Bool) (ilog : List SafetyIntervention) (session_id category : String)
    (hlog : logOk = true) :
    log_safety_intervention_to_db logOk ilog session_id category =
      ilog ++ [ { session_id_prefix := session_id.take 8,
                  category := (category_map category).getD
                    ModelsSafetyCategory.INAPPROPRIATE } ] ∧
    (session_id.take 8).length ≤ 8 ∧
    (8 < session_id.length → session_id.take 8 ≠ session_id) := by
  refine ⟨by simp [log_safety_intervention_to_db, hlog], ?_, ?_⟩
  · rw [String.take_eq]
    show (session_id.data.take 8).length ≤ 8
    rw [List.length_take]
    exact Nat.min_le_left _ _
  · intro hlen he
    have : (session_id.take 8).length = session_id.length := by rw [he]
    rw [String.take_eq] at this
    have hd : (session_id.data.take 8).length = session_id.data.length := this
    rw [List.length_take] at hd
    have : session_id.data.length = session_id.length := rfl
    omega

/-- C9 amended witness: a 10-character identifier is truncated to its
first 8 characters, which differ from the full identifier. -/
theorem C9_prefix_truncation_amended_witness :
    log_safety_intervention_to_db true [] "abcdefghij" "legal" =
      [ { session_id_prefix := "abcdefgh",
          category := ModelsSafetyCategory.LEGAL } ] ∧
    "abcdefghij".take 8 ≠ "abcdefghij" := by
  have h := C9_prefix_truncation_amended true [] "abcdefghij" "legal" rfl
  refine ⟨?_, h.2.2 (by decide)⟩
  rw [h.1]
  decide

/-- C8: for every caller-supplied session id that uuid.UUID rejects (and
a fresh uuid4 value not yet present in the store), /chat does not fail:
a blank SessionState is created and persisted under the fresh identifier,
the response carries the canonical string of the fresh identifier, and
that string is distinct from the invalid input (the canonical string of
any uuid always parses, the input does not). -/
theorem C8_invalid_session_id_substituted
    (search : String → String → Bool) (o : Oracles) (db : List Session)
    (ilog : List SafetyIntervention) (payload : ChatIn)
    (hclient : o.clientConfigured = true)
    (hparse : pyParseUUID payload.session_id = none)
    (hfresh : findSession db o.freshId = none) :
    (get_or_create_session db o.freshId payload.session_id).1 =
      { id := o.freshId } ∧
    (get_or_create_session db o.freshId payload.session_id).2 =
      db ++ [ { id := o.freshId } ] ∧
    (chat search o db ilog payload).out.session_id = uuidStr o.freshId ∧
    uuidStr o.freshId ≠ payload.session_id ∧
    findSession (chat search o db ilog payload).sessions o.freshId ≠ none := by
  have hsess : (get_or_create_session db o.freshId payload.session_id).1 =
      { id := o.freshId } := by
    unfold get_or_create_session
    simp [hparse, hfresh]
  have hdb1 : (get_or_create_session db o.freshId payload.session_id).2 =
      db ++ [ { id := o.freshId } ] := by
    unfold get_or_create_session
    simp [hparse, hfresh]
  have hid : (get_or_create_session db o.freshId payload.session_id).1.id =
      o.freshId := by rw [hsess]
  have hfound : findSession (get_or_create_session db o.freshId payload.session_id).2
      o.freshId = some { id := o.freshId } := by
    rw [hdb1, findSession_append_of_none _ _ _ hfresh]
    simp [findSession]
  have hdist : uuidStr o.freshId ≠ payload.session_id := by
    intro he
    have := pyParseUUID_uuidStr_isSome o.freshId
    rw [he, hparse] at this
    exact absurd this (by simp)
  refine ⟨hsess, hdb1, ?_, hdist, ?_⟩
  · by_cases hsafe : (check_safety search payload.message).is_safe = true
    · cases hgen : o.genResult with
      | error e =>
        rw [chat_genFail_eq search o db ilog payload e hclient hsafe hgen, hid]
      | ok reply =>
        cases hcommit : o.commitOk with
        | true =>
          rw [chat_ok_commit_eq search o db ilog payload reply hclient hsafe hgen hcommit,
            postSession_id, hid]
        | false =>
          rw [chat_ok_nocommit_eq search o db ilog payload reply hclient hsafe hgen hcommit,
            postSession_id, hid]
    · have hsafe' : (check_safety search payload.message).is_safe = false := by
        cases h : (check_safety search payload.message).is_safe with
        | true => exact absurd h hsafe
        | false => rfl
      simp [chat, hclient, hsafe', hid]
  · by_cases hsafe : (check_safety search payload.message).is_safe = true
    · cases hgen : o.genResult with
      | error e =>
        rw [chat_genFail_eq search o db ilog payload e hclient hsafe hgen]
        simp only [hfound]
        simp
      | ok reply =>
        cases hcommit : o.commitOk with
        | true =>
          have hfind := chat_ok_commit_find search o db ilog payload reply
            hclient hsafe hgen hcommit
          rw [hid] at hfind
          rw [hfind]
          simp
        | false =>
          rw [chat_ok_nocommit_eq search o db ilog payload reply hclient hsafe hgen hcommit]
          simp only [hfound]
          simp
    · have hsafe' : (check_safety search payload.message).is_safe = false := by
        cases h : (check_safety search payload.message).is_safe with
        | true => exact absurd h hsafe
        | false => rfl
      have hs : (chat search o db ilog payload).sessions =
          (get_or_create_session db o.freshId payload.session_id).2 := by
        simp [chat, hclient, hsafe']
      rw [hs, hfound]
      simp

/-- C8 witness: the invalid id "not-a-uuid" on a first call is replaced
by the canonical string of the fresh uuid 1, distinct from the input. -/
theorem C8_invalid_session_id_substituted_witness :
    (chat (fun _ _ => false)
        { clientConfigured := true, freshId := 1, genResult := Except.ok "r",
          sumResult := Except.ok "s", logOk := true, commitOk := true }
        [] [] { session_id := "not-a-uuid", message := "hello" }).out.session_id =
      uuidStr 1 ∧
    uuidStr 1 ≠ "not-a-uuid" := by
  have h := C8_invalid_session_id_substituted (fun _ _ => false)
    { clientConfigured := true, freshId := 1, genResult := Except.ok "r",
      sumResult := Except.ok "s", logOk := true, commitOk := true }
    [] [] { session_id := "not-a-uuid", message := "hello" }
    rfl (by decide) rfl
  exact ⟨h.2.2.1, h.2.2.2.1⟩

/-- postSession keeps the summary present whenever it already was. -/
theorem postSession_summary_isSome (o : Oracles) (s : Session) (m r : String)
    (h : s.summary.isSome = true) :
    (postSession o s m r).summary.isSome = true := by
  by_cases ht : (s.message_count + 1) % SUMMARY_FREQUENCY = 0
  · rw [(postSession_trigger o s m r ht).1]
    rfl
  · rw [(postSession_no_trigger o s m r ht).2.2]
    exact h

/-- Session resolution never loses an existing row. -/
theorem findSession_get_or_create (db : List Session) (freshId : Nat)
    (session_id : String) (u : Nat) (s : Session)
    (hfind : findSession db u = some s) :
    findSession (get_or_create_session db freshId session_id).2 u = some s := by
  unfold get_or_create_session
  cases hp : pyParseUUID session_id with
  | none =>
    simp only
    cases hf : findSession db freshId with
    | some t => simpa [hf] using hfind
    | none => simpa [hf] using findSession_append_of_some db _ u s hfind
  | some v =>
    simp only
    cases hf : findSession db v with
    | some t => simpa [hf] using hfind
    | none => simpa [hf] using findSession_append_of_some db _ u s hfind

/-- One /chat turn preserves "this stored session has a summary": the row
survives the turn and its summary stays present, whatever the branch. -/
theorem chat_preserves_summary_isSome
    (search : String → String → Bool) (o : Oracles) (db : List Session)
    (ilog : List SafetyIntervention) (payload : ChatIn) (u : Nat) (s : Session)
    (hfind : findSession db u = some s) (hsum : s.summary.isSome = true) :
    ∃ s', findSession (chat search o db ilog payload).sessions u = some s' ∧
      s'.summary.isSome = true := by
  have hkeep := findSession_get_or_create db o.freshId payload.session_id u s hfind
  cases hclient : o.clientConfigured with
  | false =>
    refine ⟨s, ?_, hsum⟩
    simpa [chat, hclient] using hfind
  | true =>
    by_cases hsafe : (check_safety search payload.message).is_safe = true
    · cases hgen : o.genResult with
      | error e =>
        refine ⟨s, ?_, hsum⟩
        rw [chat_genFail_eq search o db ilog payload e hclient hsafe hgen]
        exact hkeep
      | ok reply =>
        cases hcommit : o.commitOk with
        | false =>
          refine ⟨s, ?_, hsum⟩
          rw [chat_ok_nocommit_eq search o db ilog payload reply hclient hsafe hgen hcommit]
          exact hkeep
        | true =>
          rw [chat_ok_commit_eq search o db ilog payload reply hclient hsafe hgen hcommit]
          by_cases hu : u = (postSession o
              (get_or_create_session db o.freshId payload.session_id).1
              payload.message reply).id
          · have hw := get_or_create_session_found db o.freshId payload.session_id
            have hpid := postSession_id o
              (get_or_create_session db o.freshId payload.session_id).1
              payload.message reply
            have hs_eq : s = (get_or_create_session db o.freshId payload.session_id).1 := by
              rw [hu, hpid] at hkeep
              rw [hkeep] at hw
              exact Option.some.inj hw
            refine ⟨postSession o (get_or_create_session db o.freshId payload.session_id).1
              payload.message reply, ?_, ?_⟩
            · rw [hu]
              apply findSession_update_self
              rw [hpid, hw]
              rfl
            · apply postSession_summary_isSome
              rw [← hs_eq]
              exact hsum
          · refine ⟨s, ?_, hsum⟩
            rw [findSession_update_of_ne _ _ _ hu]
            exact hkeep
    · have hsafe' : (check_safety search payload.message).is_safe = false := by
        cases h : (check_safety search payload.message).is_safe with
        | true => exact absurd h hsafe
        | false => rfl
      refine ⟨s, ?_, hsum⟩
      have hs : (chat search o db ilog payload).sessions =
          (get_or_create_session db o.freshId payload.session_id).2 := by
        simp [chat, hclient, hsafe']
      rw [hs]
      exact hkeep

/-- Any number of further /chat turns preserves a present summary on a
stored session. -/
theorem runTurns_preserves_summary_isSome
    (search : String → String → Bool) (turns : List (ChatIn × Oracles)) :
    ∀ (db : List Session) (ilog : List SafetyIntervention) (u : Nat) (s : Session),
      findSession db u = some s → s.summary.isSome = true →
      ∀ s', findSession (runTurns search db ilog turns).1 u = some s' →
        s'.summary.isSome = true := by
  induction turns with
  | nil =>
    intro db ilog u s hf hs s' hf'
    have : findSession db u = some s' := hf'
    rw [hf] at this
    rw [← Option.some.inj this]
    exact hs
  | cons t rest ih =>
    intro db ilog u s hf hs s' hf'
    obtain ⟨s'', hf'', hs''⟩ :=
      chat_preserves_summary_isSome search t.2 db ilog t.1 u s hf hs
    exact ih _ _ u s'' hf'' hs'' s' (by
      rw [runTurns] at hf'
      exact hf')

/-- C10: once a summary is stored it never becomes absent again - across
any sequence of further turns the stored session keeps a present summary;
on the committed turn whose trigger fires, the stored summary is present
and the response reports has_summary = true, and when the summarization
provider failed the stored value is the prior summary or the empty
string; and every turn resolving a session that already carries a summary
answers has_summary = true. -/
theorem C10_summary_never_absent_after_trigger :
    (∀ (search : String → String → Bool) (turns : List (ChatIn × Oracles))
       (db : List Session) (ilog : List SafetyIntervention) (u : Nat) (s : Session),
      findSession db u = some s → s.summary.isSome = true →
      ∀ s', findSession (runTurns search db ilog turns).1 u = some s' →
        s'.summary.isSome = true) ∧
    (∀ (search : String → String → Bool) (o : Oracles) (db : List Session)
       (ilog : List SafetyIntervention) (payload : ChatIn) (reply : String),
      o.clientConfigured = true →
      (check_safety search payload.message).is_safe = true →
      o.genResult = Except.ok reply → o.commitOk = true →
      ((get_or_create_session db o.freshId payload.session_id).1.message_count + 1)
          % SUMMARY_FREQUENCY = 0 →
      (postSession o (get_or_create_session db o.freshId payload.session_id).1
          payload.message reply).summary.isSome = true ∧
      (chat search o db ilog payload).out.has_summary = true ∧
      (∀ e, o.sumResult = Except.error e →
        (postSession o (get_or_create_session db o.freshId payload.session_id).1
            payload.message reply).summary =
          some ((get_or_create_session db o.freshId payload.session_id).1.summary.getD ""))) ∧
    (∀ (search : String → String → Bool) (o : Oracles) (db : List Session)
       (ilog : List SafetyIntervention) (payload : ChatIn),
      o.clientConfigured = true →
      (get_or_create_session db o.freshId payload.session_id).1.summary.isSome = true →
      (chat search o db ilog payload).out.has_summary = true) := by
  refine ⟨runTurns_preserves_summary_isSome, ?_, ?_⟩
  · intro search o db ilog payload reply hclient hsafe hgen hcommit htrig
    have hsome : (postSession o (get_or_create_session db o.freshId payload.session_id).1
        payload.message reply).summary.isSome = true := by
      rw [(postSession_trigger _ _ _ _ htrig).1]
      rfl
    refine ⟨hsome, ?_, ?_⟩
    · rw [chat_ok_commit_eq search o db ilog payload reply hclient hsafe hgen hcommit]
      exact hsome
    · intro e hsum
      rw [(postSession_trigger _ _ _ _ htrig).1]
      simp [generate_summary, hclient, hsum]
  · intro search o db ilog payload hclient hsum
    by_cases hsafe : (check_safety search payload.message).is_safe = true
    · cases hgen : o.genResult with
      | error e =>
        rw [chat_genFail_eq search o db ilog payload e hclient hsafe hgen]
        exact hsum
      | ok reply =>
        cases hcommit : o.commitOk with
        | true =>
          rw [chat_ok_commit_eq search o db ilog payload reply hclient hsafe hgen hcommit]
          exact postSession_summary_isSome _ _ _ _ hsum
        | false =>
          rw [chat_ok_nocommit_eq search o db ilog payload reply hclient hsafe hgen hcommit]
          exact postSession_summary_isSome _ _ _ _ hsum
    · have hsafe' : (check_safety search payload.message).is_safe = false := by
        cases h : (check_safety search payload.message).is_safe with
        | true => exact absurd h hsafe
        | false => rfl
      simp [chat, hclient, hsafe', hsum]

/-- C10 witness: a trigger turn whose summarization call fails on a
session without a prior summary still answers has_summary = true, and a
later turn on a session already carrying a summary keeps it present. -/
theorem C10_summary_never_absent_after_trigger_witness :
    (chat (fun _ _ => false)
        { clientConfigured := true, freshId := 0, genResult := Except.ok "r",
          sumResult := Except.error "e", logOk := true, commitOk := true }
        [ { id := 0, summary := none, message_count := 3,
            last_user_message := some "u", last_assistant_reply := some "a" } ]
        [] { session_id := uuidStr 0, message := "m" }).out.has_summary = true ∧
    (chat (fun _ _ => false) demoOracle
        [ { id := 0, summary := some "S", message_count := 4,
            last_user_message := none, last_assistant_reply := none } ]
        [] { session_id := uuidStr 0, message := "m" }).out.has_summary = true := by
  have h := C10_summary_never_absent_after_trigger
  refine ⟨?_, ?_⟩
  · exact (h.2.1 (fun _ _ => false)
      { clientConfigured := true, freshId := 0, genResult := Except.ok "r",
        sumResult := Except.error "e", logOk := true, commitOk := true }
      [ { id := 0, summary := none, message_count := 3,
          last_user_message := some "u", last_assistant_reply := some "a" } ]
      [] { session_id := uuidStr 0, message := "m" } "r"
      rfl (by decide) rfl rfl (by decide)).2.1
  · exact h.2.2 (fun _ _ => false) demoOracle
      [ { id := 0, summary := some "S", message_count := 4,
          last_user_message := none, last_assistant_reply := none } ]
      [] { session_id := uuidStr 0, message := "m" } rfl (by decide)
